import Mathlib

/-!
# Verification of the AI MVP backend (workflows / fields / prompts)

Shallow embedding of the backend's handlers:

* `database.py` / the Supabase store: modelled as a `Store` value with three
  tables; `select ... eq` calls become pure filters, insert/delete calls are
  driven by explicit `InsertOutcome` parameters so that the store's possible
  behaviours (row returned, empty data, raised error) are all covered.
* `services.py` (`execute_prompt`): the outbound OpenAI call is an oracle
  `api : ChatRequest → ApiOutcome`; the function returns the list of requests
  it sent together with its `Except` result.
* `models.py` validators and `main.py` handlers are translated directly.

Python string primitives (`str.strip`, `str.lower`, `in`, `str.replace`,
`uuid.UUID`) are modelled by structurally recursive functions so that every
definition evaluates by `decide` / `rfl`.
-/

namespace AiMvp

/-! ### Python string primitives -/

/-- ASCII whitespace stripped by Python `str.strip()`. -/
def isPySpace (c : Char) : Bool :=
  c.toNat == 32 || c.toNat == 9 || c.toNat == 10 || c.toNat == 13 ||
    c.toNat == 11 || c.toNat == 12

/-- Model of Python `s.strip()`: drop leading and trailing whitespace. -/
def pyStrip (s : String) : String :=
  String.mk (((s.toList.dropWhile isPySpace).reverse.dropWhile isPySpace).reverse)

/-- Model of Python `s.lower()`. -/
def pyLower (s : String) : String :=
  String.mk (s.toList.map Char.toLower)

/-- Model of Python `pat in s` on character lists. -/
def listContainsSub (pat : List Char) : List Char → Bool
  | [] => pat.isEmpty
  | c :: cs => pat.isPrefixOf (c :: cs) || listContainsSub pat cs

/-- Model of Python `pat in s`. -/
def strContainsSub (s pat : String) : Bool :=
  listContainsSub pat.toList s.toList

/-- Fuelled worker for `pyReplace` (structural recursion on the fuel). -/
def replaceAux (pat rep : List Char) : Nat → List Char → List Char
  | _, [] => []
  | 0, l => l
  | fuel + 1, c :: cs =>
    if pat.isPrefixOf (c :: cs) then
      rep ++ replaceAux pat rep fuel (List.drop (pat.length - 1) cs)
    else
      c :: replaceAux pat rep fuel cs

/-- Model of Python `s.replace(pat, rep)` for a non-empty pattern:
replace every non-overlapping occurrence, left to right. -/
def pyReplace (s pat rep : String) : String :=
  String.mk (replaceAux pat.toList rep.toList s.toList.length s.toList)

/-! ### Python `uuid.UUID` -/

/-- The two brace characters stripped by `hex.strip` in `uuid.UUID`. -/
def isBraceChar (c : Char) : Bool :=
  c.toNat == 123 || c.toNat == 125

/-- Strip brace characters from both ends of a character list. -/
def pyStripBraces (cs : List Char) : List Char :=
  ((cs.dropWhile isBraceChar).reverse.dropWhile isBraceChar).reverse

/-- Hexadecimal digit test. -/
def isHexDigitChar (c : Char) : Bool :=
  c.isDigit || (97 ≤ c.toNat && c.toNat ≤ 102) || (65 ≤ c.toNat && c.toNat ≤ 70)

/-- Insert the canonical 8-4-4-4-12 hyphens into 32 hex digits. -/
def insertHyphens (cs : List Char) : List Char :=
  cs.take 8 ++ '-' :: ((cs.drop 8).take 4) ++ '-' :: ((cs.drop 12).take 4) ++
    '-' :: ((cs.drop 16).take 4) ++ '-' :: cs.drop 20

/-- Model of Python `str(uuid.UUID(s))`: `uuid.UUID` removes every occurrence
of `urn:` and `uuid:`, strips braces from both ends, removes hyphens, and
requires exactly 32 hex digits; `str` renders the canonical lowercase
hyphenated form. Returns `none` when `uuid.UUID(s)` raises `ValueError`. -/
def pyUUIDCanon (s : String) : Option String :=
  let h := pyReplace (pyReplace s "urn:" "") "uuid:" ""
  let cs := (pyStripBraces h.toList).filter (fun c => !(c == '-'))
  if cs.length == 32 && cs.all isHexDigitChar then
    some (String.mk (insertHyphens (cs.map Char.toLower)))
  else
    none

/-! ### The store (`database.py` / Supabase tables) -/

/-- A row of the `workflows` table. -/
structure WorkflowRow where
  id : String
  name : String
  created_at : String
deriving Repr, DecidableEq

/-- A row of the `fields` table. -/
structure FieldRow where
  id : String
  workflow_id : String
  name : String
  data_type : String
  created_at : String
deriving Repr, DecidableEq

/-- A row of the `prompts` table. -/
structure PromptRow where
  id : String
  field_id : String
  prompt_template : String
  created_at : String
deriving Repr, DecidableEq

/-- The three tables of the hosted database. -/
structure Store where
  workflows : List WorkflowRow
  fields : List FieldRow
  prompts : List PromptRow
deriving Repr, DecidableEq

/-- `supabase.table("workflows").select("*").eq("id", wid).execute().data` -/
def selectWorkflowsById (s : Store) (wid : String) : List WorkflowRow :=
  s.workflows.filter (fun w => w.id == wid)

/-- `supabase.table("fields").select("*").eq("workflow_id", wid).execute().data` -/
def selectFieldsByWorkflow (s : Store) (wid : String) : List FieldRow :=
  s.fields.filter (fun f => f.workflow_id == wid)

/-- `supabase.table("prompts").select("*").eq("field_id", fid).execute().data` -/
def selectPromptsByField (s : Store) (fid : String) : List PromptRow :=
  s.prompts.filter (fun p => p.field_id == fid)

/-- Outcome of a Supabase `insert(...).execute()` call: a returned row,
an empty `data` list, or a raised exception carrying a message. -/
inductive InsertOutcome (α : Type) where
  | inserted (row : α)
  | emptyData
  | raised (msg : String)
deriving Repr, DecidableEq

/-! ### `services.py`: the Prompt Executor -/

/-- One chat message sent to the generation API. -/
structure ChatMessage where
  role : String
  content : String
deriving Repr, DecidableEq

/-- One `client.chat.completions.create` request, with its decoding
parameters (`temperature` and `timeout` are exact rationals). -/
structure ChatRequest where
  model : String
  messages : List ChatMessage
  max_tokens : Nat
  temperature : ℚ
  timeout : ℚ
deriving Repr, DecidableEq

/-- What the external generation API does with a request: a response whose
message content may be absent, an `openai.APIError`, or some other error. -/
inductive ApiOutcome where
  | success (content : Option String)
  | apiError (msg : String)
  | otherError (msg : String)
deriving Repr, DecidableEq

/-- The fixed system instruction of `execute_prompt`. -/
def systemInstruction : String :=
  "You are a helpful AI assistant. Follow the instructions in the prompt carefully."

/-- `combined_prompt = f"{prompt_template}\n\nUser Input: {user_input}"` -/
def combinedPrompt (prompt_template user_input : String) : String :=
  prompt_template ++ "\n\nUser Input: " ++ user_input

/-- The single request built by `execute_prompt`. -/
def chatRequest (prompt_template user_input : String) : ChatRequest where
  model := "gpt-3.5-turbo"
  messages :=
    [⟨"system", systemInstruction⟩,
     ⟨"user", combinedPrompt prompt_template user_input⟩]
  max_tokens := 1000
  temperature := 7 / 10
  timeout := 30

/-- `services.execute_prompt`: checks the API key, sends one request, and
returns the stripped content on success. The first component records the
requests actually sent to the API. On a response with no content the code
hits an `AttributeError` which the generic handler re-raises with the
`Unexpected error during prompt execution:` prefix (the Python attribute
message itself is abstracted). -/
def execute_prompt (apiKeySet : Bool) (api : ChatRequest → ApiOutcome)
    (prompt_template user_input : String) :
    List ChatRequest × Except String String :=
  if apiKeySet = false then
    ([], Except.error "OPENAI_API_KEY environment variable is required")
  else
    let req := chatRequest prompt_template user_input
    match api req with
    | ApiOutcome.success (some content) => ([req], Except.ok (pyStrip content))
    | ApiOutcome.success none =>
        ([req],
         Except.error "Unexpected error during prompt execution: response content is None")
    | ApiOutcome.apiError msg =>
        ([req], Except.error ("OpenAI API error: " ++ msg))
    | ApiOutcome.otherError msg =>
        ([req], Except.error ("Unexpected error during prompt execution: " ++ msg))

/-! ### Execution models (`models.py`) -/

/-- `models.FieldExecutionResult`. -/
structure FieldExecutionResult where
  field_id : String
  field_name : String
  data_type : String
  prompt_template : String
  ai_response : String
  execution_success : Bool
  error_message : Option String
deriving Repr, DecidableEq

/-- `models.WorkflowExecutionResponse`. -/
structure WorkflowExecutionResponse where
  workflow_id : String
  workflow_name : String
  user_input : String
  total_fields : Nat
  successful_executions : Nat
  failed_executions : Nat
  field_results : List FieldExecutionResult
  execution_timestamp : String
deriving Repr, DecidableEq

/-- Result of one HTTP handler: a body with its status code, or an
`HTTPException` with its status code and detail string. -/
inductive EndpointResult (α : Type) where
  | ok (statusCode : Nat) (body : α)
  | httpError (statusCode : Nat) (detail : String)
deriving Repr, DecidableEq

/-- The HTTP status code of a handler result. -/
def EndpointResult.status : EndpointResult α → Nat
  | .ok s _ => s
  | .httpError s _ => s

/-! ### `main.py`: the Workflow Execution Orchestrator -/

/-- One iteration of the per-field loop in `execute_workflow`: fetch the
field's prompts; with none, record the literal failure; otherwise run the
first prompt through `execute_prompt` and record success or captured
failure. -/
def processField (apiKeySet : Bool) (api : ChatRequest → ApiOutcome)
    (store : Store) (user_input : String) (field : FieldRow) :
    FieldExecutionResult :=
  match selectPromptsByField store field.id with
  | [] =>
      { field_id := field.id
        field_name := field.name
        data_type := field.data_type
        prompt_template := ""
        ai_response := ""
        execution_success := false
        error_message := some "No prompts found for this field" }
  | prompt :: _ =>
      match (execute_prompt apiKeySet api prompt.prompt_template user_input).2 with
      | Except.ok ai_response =>
          { field_id := field.id
            field_name := field.name
            data_type := field.data_type
            prompt_template := prompt.prompt_template
            ai_response := ai_response
            execution_success := true
            error_message := none }
      | Except.error e =>
          { field_id := field.id
            field_name := field.name
            data_type := field.data_type
            prompt_template := prompt.prompt_template
            ai_response := ""
            execution_success := false
            error_message := some e }

/-- The field loop of `execute_workflow`: collects the per-field results in
order and counts successes and failures. -/
def executeLoop (apiKeySet : Bool) (api : ChatRequest → ApiOutcome)
    (store : Store) (user_input : String) :
    List FieldRow → List FieldExecutionResult × Nat × Nat
  | [] => ([], 0, 0)
  | field :: rest =>
      let r := processField apiKeySet api store user_input field
      let t := executeLoop apiKeySet api store user_input rest
      (r :: t.1,
       (if r.execution_success then 1 else 0) + t.2.1,
       (if r.execution_success then 0 else 1) + t.2.2)

/-- `main.execute_workflow` (`POST /workflows/{workflow_id}/execute`):
validate the UUID, look up the workflow, look up its fields, run the loop,
and aggregate the report. `now` stands for `datetime.utcnow()`. -/
def execute_workflow (apiKeySet : Bool) (api : ChatRequest → ApiOutcome)
    (store : Store) (workflow_id : String) (user_input : String)
    (now : String) : EndpointResult WorkflowExecutionResponse :=
  match pyUUIDCanon workflow_id with
  | none => .httpError 400 "Invalid workflow ID format"
  | some wuuid =>
    match selectWorkflowsById store wuuid with
    | [] => .httpError 404 "Workflow not found"
    | workflow :: _ =>
      match selectFieldsByWorkflow store wuuid with
      | [] => .httpError 404 "No fields found for this workflow"
      | f0 :: rest =>
        let t := executeLoop apiKeySet api store user_input (f0 :: rest)
        .ok 200
          { workflow_id := workflow.id
            workflow_name := workflow.name
            user_input := user_input
            total_fields := (f0 :: rest).length
            successful_executions := t.2.1
            failed_executions := t.2.2
            field_results := t.1
            execution_timestamp := now }

/-! ### Response models (`models.py`) -/

/-- `models.Prompt`. -/
structure Prompt where
  id : String
  field_id : String
  prompt_template : String
  created_at : String
deriving Repr, DecidableEq

/-- `models.FieldWithPrompts`. -/
structure FieldWithPrompts where
  id : String
  workflow_id : String
  name : String
  data_type : String
  created_at : String
  prompts : List Prompt
deriving Repr, DecidableEq

/-- `models.Workflow` (without the optional nested fields, which
`create_workflow` never sets). -/
structure Workflow where
  id : String
  name : String
  created_at : String
deriving Repr, DecidableEq

/-- `models.WorkflowComplete`. -/
structure WorkflowComplete where
  id : String
  name : String
  created_at : String
  fields : List FieldWithPrompts
deriving Repr, DecidableEq

/-! ### `main.py`: CRUD handlers -/

/-- `main.get_workflow` (`GET /workflows/{workflow_id}`): validate the UUID,
look up the workflow, and assemble the nested field/prompt tree. -/
def get_workflow (store : Store) (workflow_id : String) :
    EndpointResult WorkflowComplete :=
  match pyUUIDCanon workflow_id with
  | none => .httpError 400 "Invalid workflow ID format"
  | some wuuid =>
    match selectWorkflowsById store wuuid with
    | [] => .httpError 404 "Workflow not found"
    | w :: _ =>
      let fields := (selectFieldsByWorkflow store wuuid).map (fun fd =>
        FieldWithPrompts.mk fd.id fd.workflow_id fd.name fd.data_type fd.created_at
          ((selectPromptsByField store fd.id).map (fun p =>
            Prompt.mk p.id p.field_id p.prompt_template p.created_at)))
      .ok 200 ⟨w.id, w.name, w.created_at, fields⟩

/-- Validated body of `POST /workflows/` (`models.WorkflowCreate` after the
pydantic validators ran). -/
structure WorkflowCreateData where
  name : String
deriving Repr, DecidableEq

/-- `main.create_workflow` (`POST /workflows/`): insert the workflow; empty
returned data is a 500; a raised store error whose lowercased message
contains `duplicate key value` is reported as a 409 Conflict, anything else
as a 500. The second component is the store after the call. -/
def create_workflow (workflow_data : WorkflowCreateData)
    (outcome : InsertOutcome WorkflowRow) (store : Store) :
    EndpointResult Workflow × Store :=
  match outcome with
  | .inserted w =>
      (.ok 201 ⟨w.id, w.name, w.created_at⟩,
       { store with workflows := store.workflows ++ [w] })
  | .emptyData =>
      (.httpError 500 "Failed to create workflow", store)
  | .raised msg =>
      if strContainsSub (pyLower msg) "duplicate key value" then
        (.httpError 409 "A workflow with this name already exists", store)
      else
        (.httpError 500 ("Database error: " ++ msg), store)

/-- Validated body part `field_data` of `POST /workflows/{id}/fields`
(`models.FieldCreate` after pydantic parsing: `workflow_id` is the canonical
form of the request's UUID). -/
structure FieldCreateData where
  workflow_id : String
  name : String
  data_type : String
deriving Repr, DecidableEq

/-- Validated body part `prompt_data` of `POST /workflows/{id}/fields`
(`models.PromptCreate` after pydantic parsing). -/
structure PromptCreateData where
  field_id : String
  prompt_template : String
deriving Repr, DecidableEq

/-- `main.create_field_with_prompt` (`POST /workflows/{workflow_id}/fields`):
validate the path UUID, check the workflow exists, check the body/path
workflow ids match, insert the field, check the body's prompt `field_id`
against the freshly generated field id, insert the prompt, and on a prompt
insert that returns no data run the compensating delete of the field. A
raised store error goes to the generic handler (duplicate-key check) with
no compensating delete. The second component is the store after the call. -/
def create_field_with_prompt (store : Store) (workflow_id : String)
    (field_data : FieldCreateData) (prompt_data : PromptCreateData)
    (fieldInsert : InsertOutcome FieldRow)
    (promptInsert : InsertOutcome PromptRow) :
    EndpointResult FieldWithPrompts × Store :=
  match pyUUIDCanon workflow_id with
  | none => (.httpError 400 "Invalid workflow ID format", store)
  | some wuuid =>
    match selectWorkflowsById store wuuid with
    | [] => (.httpError 404 "Workflow not found", store)
    | _ :: _ =>
      if field_data.workflow_id ≠ wuuid then
        (.httpError 400 "Field workflow_id must match the URL workflow_id", store)
      else
        match fieldInsert with
        | .emptyData => (.httpError 500 "Failed to create field", store)
        | .raised msg =>
            if strContainsSub (pyLower msg) "duplicate key value" then
              (.httpError 409 "A field with this name already exists in this workflow", store)
            else
              (.httpError 500 ("Database error: " ++ msg), store)
        | .inserted field =>
          let store1 := { store with fields := store.fields ++ [field] }
          match pyUUIDCanon field.id with
          | none =>
              (.httpError 500 "Database error: badly formed hexadecimal UUID string", store1)
          | some fuuid =>
            if prompt_data.field_id ≠ fuuid then
              (.httpError 400 "Prompt field_id must match the created field ID", store1)
            else
              match promptInsert with
              | .inserted prompt =>
                  (.ok 201
                    ⟨field.id, field.workflow_id, field.name, field.data_type,
                     field.created_at,
                     [⟨prompt.id, prompt.field_id, prompt.prompt_template,
                       prompt.created_at⟩]⟩,
                   { store1 with prompts := store1.prompts ++ [prompt] })
              | .emptyData =>
                  (.httpError 500 "Failed to create prompt",
                   { store1 with
                       fields := store1.fields.filter (fun f => !(f.id == field.id)) })
              | .raised msg =>
                  if strContainsSub (pyLower msg) "duplicate key value" then
                    (.httpError 409 "A field with this name already exists in this workflow", store1)
                  else
                    (.httpError 500 ("Database error: " ++ msg), store1)

/-! ### `models.py` validators and the request pipeline for field creation -/

/-- The fixed enumeration accepted by `FieldCreate.validate_data_type`. -/
def valid_types : List String :=
  ["text", "number", "boolean", "date", "email", "url", "json"]

/-- `FieldCreate.validate_data_type`: membership in the fixed enumeration. -/
def validate_data_type (v : String) : Except String String :=
  if v ∈ valid_types then
    Except.ok v
  else
    Except.error "Data type must be one of: text, number, boolean, date, email, url, json"

/-- Raw (pre-validation) body part `field_data`. -/
structure RawFieldCreate where
  workflow_id : String
  name : String
  data_type : String
deriving Repr, DecidableEq

/-- Raw (pre-validation) body part `prompt_data`. -/
structure RawPromptCreate where
  field_id : String
  prompt_template : String
deriving Repr, DecidableEq

/-- Pydantic validation of `models.FieldCreate`, in field order: parse
`workflow_id` as a UUID, require a non-empty stripped `name`, and check
`data_type` against the enumeration. -/
def validateFieldCreate (raw : RawFieldCreate) : Except String FieldCreateData :=
  match pyUUIDCanon raw.workflow_id with
  | none => Except.error "value is not a valid uuid"
  | some wid =>
    if pyStrip raw.name == "" then
      Except.error "Field name cannot be empty"
    else
      match validate_data_type raw.data_type with
      | Except.error e => Except.error e
      | Except.ok d => Except.ok ⟨wid, pyStrip raw.name, d⟩

/-- Pydantic validation of `models.PromptCreate`. -/
def validatePromptCreate (raw : RawPromptCreate) : Except String PromptCreateData :=
  match pyUUIDCanon raw.field_id with
  | none => Except.error "value is not a valid uuid"
  | some fid =>
    if pyStrip raw.prompt_template == "" then
      Except.error "Prompt template cannot be empty"
    else
      Except.ok ⟨fid, pyStrip raw.prompt_template⟩

/-- The field-creation request pipeline: the framework validates both body
parts before the handler runs; a validation failure is reported as
`InvalidInput` with status 400 (modelled from the spec's status mapping for
the out-of-scope HTTP framework) and the handler — and hence any store
write — never runs. -/
def create_field_endpoint (store : Store) (workflow_id : String)
    (raw_field : RawFieldCreate) (raw_prompt : RawPromptCreate)
    (fieldInsert : InsertOutcome FieldRow)
    (promptInsert : InsertOutcome PromptRow) :
    EndpointResult FieldWithPrompts × Store :=
  match validateFieldCreate raw_field with
  | Except.error e => (.httpError 400 e, store)
  | Except.ok field_data =>
    match validatePromptCreate raw_prompt with
    | Except.error e => (.httpError 400 e, store)
    | Except.ok prompt_data =>
        create_field_with_prompt store workflow_id field_data prompt_data
          fieldInsert promptInsert

/-! ### Concrete sample identifiers (canonical UUID strings) for witnesses -/

/-- A canonical UUID string used as a sample workflow id. -/
def uuidA : String := "00000000-0000-0000-0000-000000000001"

/-- A canonical UUID string used as a sample field id. -/
def uuidB : String := "00000000-0000-0000-0000-000000000002"

/-- A canonical UUID string used as a second sample field id. -/
def uuidC : String := "00000000-0000-0000-0000-000000000003"

/-- A canonical UUID string used as a sample prompt id. -/
def uuidD : String := "00000000-0000-0000-0000-000000000004"

/-! ## Helper lemmas about the execution loop -/

theorem executeLoop_results (k : Bool) (api : ChatRequest → ApiOutcome)
    (store : Store) (u : String) (fs : List FieldRow) :
    (executeLoop k api store u fs).1 = fs.map (processField k api store u) := by
  induction fs with
  | nil => rfl
  | cons f rest ih => simp [executeLoop, ih]

theorem executeLoop_succ_count (k : Bool) (api : ChatRequest → ApiOutcome)
    (store : Store) (u : String) (fs : List FieldRow) :
    (executeLoop k api store u fs).2.1 =
      (fs.map (processField k api store u)).countP
        (fun r => r.execution_success) := by
  induction fs with
  | nil => rfl
  | cons f rest ih =>
      simp only [executeLoop, List.map_cons, List.countP_cons, ih]
      cases h : (processField k api store u f).execution_success <;> simp [h] <;> omega

theorem executeLoop_fail_count (k : Bool) (api : ChatRequest → ApiOutcome)
    (store : Store) (u : String) (fs : List FieldRow) :
    (executeLoop k api store u fs).2.2 =
      (fs.map (processField k api store u)).countP
        (fun r => !r.execution_success) := by
  induction fs with
  | nil => rfl
  | cons f rest ih =>
      simp only [executeLoop, List.map_cons, List.countP_cons, ih]
      cases h : (processField k api store u f).execution_success <;> simp [h] <;> omega

theorem executeLoop_sum (k : Bool) (api : ChatRequest → ApiOutcome)
    (store : Store) (u : String) (fs : List FieldRow) :
    (executeLoop k api store u fs).2.1 + (executeLoop k api store u fs).2.2 =
      fs.length := by
  induction fs with
  | nil => rfl
  | cons f rest ih =>
      simp only [executeLoop, List.length_cons]
      cases h : (processField k api store u f).execution_success <;> simp [h] <;> omega

/-! ## C1 -/

/-- **C1.** For every workflow execution that passes the workflow and field
lookups, a failure of an individual field's prompt fetch or generation call
is captured in that field's `FieldExecutionResult` and does not abort the
batch: the loop visits every field (`field_results` is exactly the map of
the per-field processing over the fields returned by the store), the
response comes back with status 200, and
`successful_executions + failed_executions = total_fields
 = field_results.length`. -/
theorem execute_workflow_captures_field_failures
    (apiKeySet : Bool) (api : ChatRequest → ApiOutcome) (store : Store)
    (workflow_id user_input now wuuid : String)
    (w : WorkflowRow) (ws : List WorkflowRow)
    (hparse : pyUUIDCanon workflow_id = some wuuid)
    (hw : selectWorkflowsById store wuuid = w :: ws)
    (hf : selectFieldsByWorkflow store wuuid ≠ []) :
    ∃ resp : WorkflowExecutionResponse,
      execute_workflow apiKeySet api store workflow_id user_input now =
        EndpointResult.ok 200 resp ∧
      resp.field_results =
        (selectFieldsByWorkflow store wuuid).map
          (processField apiKeySet api store user_input) ∧
      resp.total_fields = (selectFieldsByWorkflow store wuuid).length ∧
      resp.field_results.length = resp.total_fields ∧
      resp.successful_executions + resp.failed_executions = resp.total_fields := by
  obtain ⟨f0, rest, hfs⟩ := List.exists_cons_of_ne_nil hf
  refine ⟨{ workflow_id := w.id
            workflow_name := w.name
            user_input := user_input
            total_fields := (f0 :: rest).length
            successful_executions :=
              (executeLoop apiKeySet api store user_input (f0 :: rest)).2.1
            failed_executions :=
              (executeLoop apiKeySet api store user_input (f0 :: rest)).2.2
            field_results :=
              (executeLoop apiKeySet api store user_input (f0 :: rest)).1
            execution_timestamp := now }, ?_, ?_, ?_, ?_, ?_⟩
  · simp only [execute_workflow, hparse, hw, hfs]
  · simp only [executeLoop_results, hfs]
  · rw [hfs]
  · simp only [executeLoop_results, List.length_map]
  · exact executeLoop_sum apiKeySet api store user_input (f0 :: rest)

/-- Witness for C1 at a concrete store: one workflow, one field with a
prompt whose generation call raises an API error, one field with no
prompts; the batch still returns 200 with `1 + 1 = 2` accounted fields. -/
theorem execute_workflow_captures_field_failures_witness :
    ∃ resp : WorkflowExecutionResponse,
      execute_workflow true (fun _ => ApiOutcome.apiError "rate limited")
        ⟨[⟨uuidA, "wf", "t0"⟩],
         [⟨uuidB, uuidA, "f1", "text", "t1"⟩, ⟨uuidC, uuidA, "f2", "text", "t2"⟩],
         [⟨uuidD, uuidB, "summarize", "t3"⟩]⟩
        uuidA "hello" "t9" =
        EndpointResult.ok 200 resp ∧
      resp.field_results =
        (selectFieldsByWorkflow
          ⟨[⟨uuidA, "wf", "t0"⟩],
           [⟨uuidB, uuidA, "f1", "text", "t1"⟩, ⟨uuidC, uuidA, "f2", "text", "t2"⟩],
           [⟨uuidD, uuidB, "summarize", "t3"⟩]⟩ uuidA).map
          (processField true (fun _ => ApiOutcome.apiError "rate limited")
            ⟨[⟨uuidA, "wf", "t0"⟩],
             [⟨uuidB, uuidA, "f1", "text", "t1"⟩, ⟨uuidC, uuidA, "f2", "text", "t2"⟩],
             [⟨uuidD, uuidB, "summarize", "t3"⟩]⟩ "hello") ∧
      resp.total_fields =
        (selectFieldsByWorkflow
          ⟨[⟨uuidA, "wf", "t0"⟩],
           [⟨uuidB, uuidA, "f1", "text", "t1"⟩, ⟨uuidC, uuidA, "f2", "text", "t2"⟩],
           [⟨uuidD, uuidB, "summarize", "t3"⟩]⟩ uuidA).length ∧
      resp.field_results.length = resp.total_fields ∧
      resp.successful_executions + resp.failed_executions = resp.total_fields :=
  execute_workflow_captures_field_failures true
    (fun _ => ApiOutcome.apiError "rate limited")
    ⟨[⟨uuidA, "wf", "t0"⟩],
     [⟨uuidB, uuidA, "f1", "text", "t1"⟩, ⟨uuidC, uuidA, "f2", "text", "t2"⟩],
     [⟨uuidD, uuidB, "summarize", "t3"⟩]⟩
    uuidA "hello" "t9" uuidA ⟨uuidA, "wf", "t0"⟩ []
    (by decide) (by decide) (by decide)

/-! ## C2 -/

/-- **C2.** For every workflow with `N` fields (here `f0 :: rest`, so
`N ≥ 1`) where each field has at least one prompt and every generation call
returns successfully, executing the workflow yields `total_fields = N`,
`successful_executions = N`, `failed_executions = 0`, `field_results` of
length `N`, each entry marked successful with the (stripped) generated text
as `ai_response`. -/
theorem execute_workflow_all_fields_succeed
    (api : ChatRequest → ApiOutcome) (store : Store)
    (workflow_id user_input now wuuid : String)
    (w : WorkflowRow) (ws : List WorkflowRow)
    (f0 : FieldRow) (rest : List FieldRow)
    (g : ChatRequest → String)
    (hparse : pyUUIDCanon workflow_id = some wuuid)
    (hw : selectWorkflowsById store wuuid = w :: ws)
    (hfs : selectFieldsByWorkflow store wuuid = f0 :: rest)
    (hprompts : ∀ f ∈ f0 :: rest, selectPromptsByField store f.id ≠ [])
    (hapi : ∀ req, api req = ApiOutcome.success (some (g req))) :
    ∃ resp : WorkflowExecutionResponse,
      execute_workflow true api store workflow_id user_input now =
        EndpointResult.ok 200 resp ∧
      resp.total_fields = (f0 :: rest).length ∧
      resp.successful_executions = (f0 :: rest).length ∧
      resp.failed_executions = 0 ∧
      resp.field_results.length = (f0 :: rest).length ∧
      ∀ r ∈ resp.field_results, r.execution_success = true ∧
        r.ai_response = pyStrip (g (chatRequest r.prompt_template user_input)) := by
  have key : ∀ f ∈ f0 :: rest,
      (processField true api store user_input f).execution_success = true ∧
      (processField true api store user_input f).ai_response =
        pyStrip (g (chatRequest
          (processField true api store user_input f).prompt_template user_input)) := by
    intro f hf
    obtain ⟨p, ps, hp⟩ := List.exists_cons_of_ne_nil (hprompts f hf)
    simp [processField, hp, execute_prompt, hapi]
  have hsucc : (executeLoop true api store user_input (f0 :: rest)).2.1 =
      (f0 :: rest).length := by
    rw [executeLoop_succ_count]
    rw [← List.length_map (f0 :: rest) (processField true api store user_input)]
    apply List.countP_eq_length.mpr
    intro r hr
    obtain ⟨f, hf, rfl⟩ := List.mem_map.mp hr
    exact (key f hf).1
  have hfail : (executeLoop true api store user_input (f0 :: rest)).2.2 = 0 := by
    have := executeLoop_sum true api store user_input (f0 :: rest)
    omega
  refine ⟨{ workflow_id := w.id
            workflow_name := w.name
            user_input := user_input
            total_fields := (f0 :: rest).length
            successful_executions :=
              (executeLoop true api store user_input (f0 :: rest)).2.1
            failed_executions :=
              (executeLoop true api store user_input (f0 :: rest)).2.2
            field_results :=
              (executeLoop true api store user_input (f0 :: rest)).1
            execution_timestamp := now }, ?_, rfl, hsucc, hfail, ?_, ?_⟩
  · simp only [execute_workflow, hparse, hw, hfs]
  · simp only [executeLoop_results, List.length_map]
  · intro r hr
    rw [executeLoop_results] at hr
    obtain ⟨f, hf, rfl⟩ := List.mem_map.mp hr
    exact key f hf

/-- Witness for C2: a store with one workflow and two fields, each with one
prompt, and an API that always answers; both fields succeed. -/
theorem execute_workflow_all_fields_succeed_witness :
    ∃ resp : WorkflowExecutionResponse,
      execute_workflow true (fun _ => ApiOutcome.success (some " fine "))
        ⟨[⟨uuidA, "wf", "t0"⟩],
         [⟨uuidB, uuidA, "f1", "text", "t1"⟩, ⟨uuidC, uuidA, "f2", "text", "t2"⟩],
         [⟨uuidD, uuidB, "summarize", "t3"⟩, ⟨uuidA, uuidC, "classify", "t4"⟩]⟩
        uuidA "hello" "t9" =
        EndpointResult.ok 200 resp ∧
      resp.total_fields = 2 ∧
      resp.successful_executions = 2 ∧
      resp.failed_executions = 0 ∧
      resp.field_results.length = 2 ∧
      ∀ r ∈ resp.field_results, r.execution_success = true ∧
        r.ai_response =
          pyStrip ((fun _ => " fine ") (chatRequest r.prompt_template "hello")) := by
  have h := execute_workflow_all_fields_succeed
    (fun _ => ApiOutcome.success (some " fine "))
    ⟨[⟨uuidA, "wf", "t0"⟩],
     [⟨uuidB, uuidA, "f1", "text", "t1"⟩, ⟨uuidC, uuidA, "f2", "text", "t2"⟩],
     [⟨uuidD, uuidB, "summarize", "t3"⟩, ⟨uuidA, uuidC, "classify", "t4"⟩]⟩
    uuidA "hello" "t9" uuidA ⟨uuidA, "wf", "t0"⟩ []
    ⟨uuidB, uuidA, "f1", "text", "t1"⟩ [⟨uuidC, uuidA, "f2", "text", "t2"⟩]
    (fun _ => " fine ")
    (by decide) (by decide) (by decide) (by decide) (fun _ => rfl)
  simpa using h

/-! ## C3 -/

/-- **C3.** For every workflow execution in which some field has zero
prompts (the store's field list decomposes as `pre ++ f :: post` with no
prompts for `f`), that field's entry in `field_results` is the failed
result whose `error_message` is exactly `"No prompts found for this field"`
(with empty template and response), it is counted in `failed_executions`,
and the remaining fields are still processed independently: their entries
are exactly their own per-field processing results. -/
theorem execute_workflow_zero_prompt_field
    (apiKeySet : Bool) (api : ChatRequest → ApiOutcome) (store : Store)
    (workflow_id user_input now wuuid : String)
    (w : WorkflowRow) (ws : List WorkflowRow)
    (pre post : List FieldRow) (f : FieldRow)
    (hparse : pyUUIDCanon workflow_id = some wuuid)
    (hw : selectWorkflowsById store wuuid = w :: ws)
    (hfs : selectFieldsByWorkflow store wuuid = pre ++ f :: post)
    (hz : selectPromptsByField store f.id = []) :
    ∃ resp : WorkflowExecutionResponse,
      execute_workflow apiKeySet api store workflow_id user_input now =
        EndpointResult.ok 200 resp ∧
      resp.field_results =
        pre.map (processField apiKeySet api store user_input) ++
          FieldExecutionResult.mk f.id f.name f.data_type "" "" false
            (some "No prompts found for this field") ::
          post.map (processField apiKeySet api store user_input) ∧
      resp.failed_executions =
        resp.field_results.countP (fun r => !r.execution_success) ∧
      1 ≤ resp.failed_executions := by
  have hne : selectFieldsByWorkflow store wuuid ≠ [] := by
    rw [hfs]; exact List.append_ne_nil_of_right_ne_nil pre (List.cons_ne_nil f post)
  obtain ⟨f0, rest, hfs2⟩ := List.exists_cons_of_ne_nil hne
  have hfr : (f0 :: rest) = pre ++ f :: post := hfs2.symm.trans hfs
  have hpf : processField apiKeySet api store user_input f =
      FieldExecutionResult.mk f.id f.name f.data_type "" "" false
        (some "No prompts found for this field") := by
    simp [processField, hz]
  refine ⟨{ workflow_id := w.id
            workflow_name := w.name
            user_input := user_input
            total_fields := (f0 :: rest).length
            successful_executions :=
              (executeLoop apiKeySet api store user_input (f0 :: rest)).2.1
            failed_executions :=
              (executeLoop apiKeySet api store user_input (f0 :: rest)).2.2
            field_results :=
              (executeLoop apiKeySet api store user_input (f0 :: rest)).1
            execution_timestamp := now }, ?_, ?_, ?_, ?_⟩
  · simp only [execute_workflow, hparse, hw, hfs2]
  · rw [executeLoop_results, hfr]
    simp [hpf]
  · rw [executeLoop_fail_count, executeLoop_results]
  · rw [executeLoop_fail_count, hfr]
    apply Nat.one_le_iff_ne_zero.mpr
    intro hzero
    rw [List.countP_eq_zero] at hzero
    have hmem : processField apiKeySet api store user_input f ∈
        (pre ++ f :: post).map (processField apiKeySet api store user_input) :=
      List.mem_map_of_mem _ (by simp)
    have := hzero _ hmem
    rw [hpf] at this
    simp at this

/-- Witness for C3: two fields, the first has a prompt, the second has
none; the second yields the literal failure and the first is processed
independently. -/
theorem execute_workflow_zero_prompt_field_witness :
    ∃ resp : WorkflowExecutionResponse,
      execute_workflow true (fun _ => ApiOutcome.success (some "ok"))
        ⟨[⟨uuidA, "wf", "t0"⟩],
         [⟨uuidB, uuidA, "f1", "text", "t1"⟩, ⟨uuidC, uuidA, "f2", "text", "t2"⟩],
         [⟨uuidD, uuidB, "summarize", "t3"⟩]⟩
        uuidA "hello" "t9" =
        EndpointResult.ok 200 resp ∧
      resp.field_results =
        [⟨uuidB, uuidA, "f1", "text", "t1"⟩].map
          (processField true (fun _ => ApiOutcome.success (some "ok"))
            ⟨[⟨uuidA, "wf", "t0"⟩],
             [⟨uuidB, uuidA, "f1", "text", "t1"⟩, ⟨uuidC, uuidA, "f2", "text", "t2"⟩],
             [⟨uuidD, uuidB, "summarize", "t3"⟩]⟩ "hello") ++
          FieldExecutionResult.mk uuidC "f2" "text" "" "" false
            (some "No prompts found for this field") ::
          [].map
            (processField true (fun _ => ApiOutcome.success (some "ok"))
              ⟨[⟨uuidA, "wf", "t0"⟩],
               [⟨uuidB, uuidA, "f1", "text", "t1"⟩, ⟨uuidC, uuidA, "f2", "text", "t2"⟩],
               [⟨uuidD, uuidB, "summarize", "t3"⟩]⟩ "hello") ∧
      resp.failed_executions =
        resp.field_results.countP (fun r => !r.execution_success) ∧
      1 ≤ resp.failed_executions :=
  execute_workflow_zero_prompt_field true
    (fun _ => ApiOutcome.success (some "ok"))
    ⟨[⟨uuidA, "wf", "t0"⟩],
     [⟨uuidB, uuidA, "f1", "text", "t1"⟩, ⟨uuidC, uuidA, "f2", "text", "t2"⟩],
     [⟨uuidD, uuidB, "summarize", "t3"⟩]⟩
    uuidA "hello" "t9" uuidA ⟨uuidA, "wf", "t0"⟩ []
    [⟨uuidB, uuidA, "f1", "text", "t1"⟩] [] ⟨uuidC, uuidA, "f2", "text", "t2"⟩
    (by decide) (by decide) (by decide) (by decide)

/-! ## C4 -/

/-- Counterexample to **C4** as stated: the field insert succeeds and the
prompt creation step fails by raising a store error; control jumps to the
generic exception handler, no compensating delete runs, and the inserted
field remains visible in the store. -/
theorem create_field_with_prompt_orphan_counterexample :
    (create_field_with_prompt
      ⟨[⟨uuidA, "wf", "t0"⟩], [], []⟩ uuidA
      ⟨uuidA, "field1", "text"⟩ ⟨uuidB, "summarize"⟩
      (InsertOutcome.inserted ⟨uuidB, uuidA, "field1", "text", "t1"⟩)
      (InsertOutcome.raised "connection reset")).2.fields =
      [⟨uuidB, uuidA, "field1", "text", "t1"⟩] ∧
    (create_field_with_prompt
      ⟨[⟨uuidA, "wf", "t0"⟩], [], []⟩ uuidA
      ⟨uuidA, "field1", "text"⟩ ⟨uuidB, "summarize"⟩
      (InsertOutcome.inserted ⟨uuidB, uuidA, "field1", "text", "t1"⟩)
      (InsertOutcome.raised "connection reset")).1 =
      EndpointResult.httpError 500 "Database error: connection reset" := by
  constructor <;> decide

/-- **C4 (amended).** When the field insert succeeds and the prompt insert
fails by returning an empty result set — the failure the handler's
`if not prompt_result.data` check detects — the compensating delete removes
the freshly inserted field, the store is left exactly as before the
request, and the operation reports a 500 failure. When the prompt insert
instead raises a store error, no compensating delete runs and the inserted
field remains persisted (see the counterexample). -/
theorem create_field_with_prompt_compensating_delete
    (store : Store) (workflow_id : String) (field_data : FieldCreateData)
    (prompt_data : PromptCreateData) (field : FieldRow) (wuuid : String)
    (w : WorkflowRow) (ws : List WorkflowRow)
    (hparse : pyUUIDCanon workflow_id = some wuuid)
    (hw : selectWorkflowsById store wuuid = w :: ws)
    (hmatch : field_data.workflow_id = wuuid)
    (hfid : pyUUIDCanon field.id = some field.id)
    (hpd : prompt_data.field_id = field.id)
    (hfresh : ∀ f ∈ store.fields, f.id ≠ field.id) :
    create_field_with_prompt store workflow_id field_data prompt_data
      (InsertOutcome.inserted field) InsertOutcome.emptyData =
      (EndpointResult.httpError 500 "Failed to create prompt", store) := by
  have hfilter : (store.fields ++ [field]).filter
      (fun f => !(f.id == field.id)) = store.fields := by
    rw [List.filter_append]
    have h1 : store.fields.filter (fun f => !(f.id == field.id)) = store.fields := by
      apply List.filter_eq_self.mpr
      intro a ha
      simpa using hfresh a ha
    have h2 : [field].filter (fun f => !(f.id == field.id)) = [] := by simp
    rw [h1, h2, List.append_nil]
  simp only [create_field_with_prompt, hparse, hw, hmatch, hfid, hpd]
  simp [hfilter]

/-- Witness for the amended C4: the store already holds one other field;
after the failed prompt insert and the compensating delete the store is
unchanged. -/
theorem create_field_with_prompt_compensating_delete_witness :
    create_field_with_prompt
      ⟨[⟨uuidA, "wf", "t0"⟩], [⟨uuidC, uuidA, "other", "text", "t2"⟩], []⟩ uuidA
      ⟨uuidA, "field1", "text"⟩ ⟨uuidB, "summarize"⟩
      (InsertOutcome.inserted ⟨uuidB, uuidA, "field1", "text", "t1"⟩)
      InsertOutcome.emptyData =
      (EndpointResult.httpError 500 "Failed to create prompt",
       ⟨[⟨uuidA, "wf", "t0"⟩], [⟨uuidC, uuidA, "other", "text", "t2"⟩], []⟩) :=
  create_field_with_prompt_compensating_delete
    ⟨[⟨uuidA, "wf", "t0"⟩], [⟨uuidC, uuidA, "other", "text", "t2"⟩], []⟩ uuidA
    ⟨uuidA, "field1", "text"⟩ ⟨uuidB, "summarize"⟩
    ⟨uuidB, uuidA, "field1", "text", "t1"⟩ uuidA ⟨uuidA, "wf", "t0"⟩ []
    (by decide) (by decide) (by decide) (by decide) (by decide) (by decide)

/-! ## C5 -/

/-- **C5.** In `create_field_with_prompt`, the body's prompt `field_id` is
compared against the id of the field inserted during the same request:
whenever it differs from that freshly generated id, the operation fails
with status 400 after the field insert, and no compensating delete runs on
this path, so the inserted field remains persisted. -/
theorem create_field_with_prompt_prompt_id_mismatch
    (store : Store) (workflow_id : String) (field_data : FieldCreateData)
    (prompt_data : PromptCreateData) (field : FieldRow)
    (wuuid fuuid : String) (w : WorkflowRow) (ws : List WorkflowRow)
    (promptInsert : InsertOutcome PromptRow)
    (hparse : pyUUIDCanon workflow_id = some wuuid)
    (hw : selectWorkflowsById store wuuid = w :: ws)
    (hmatch : field_data.workflow_id = wuuid)
    (hfid : pyUUIDCanon field.id = some fuuid)
    (hne : prompt_data.field_id ≠ fuuid) :
    create_field_with_prompt store workflow_id field_data prompt_data
      (InsertOutcome.inserted field) promptInsert =
      (EndpointResult.httpError 400 "Prompt field_id must match the created field ID",
       { store with fields := store.fields ++ [field] }) := by
  simp only [create_field_with_prompt, hparse, hw, hmatch, hfid]
  simp [hne]

/-- Witness for C5: the caller guesses a prompt `field_id` different from
the id the store generated; the request fails 400 and the field stays. -/
theorem create_field_with_prompt_prompt_id_mismatch_witness :
    create_field_with_prompt
      ⟨[⟨uuidA, "wf", "t0"⟩], [], []⟩ uuidA
      ⟨uuidA, "field1", "text"⟩ ⟨uuidD, "summarize"⟩
      (InsertOutcome.inserted ⟨uuidB, uuidA, "field1", "text", "t1"⟩)
      (InsertOutcome.inserted ⟨uuidC, uuidB, "summarize", "t2"⟩) =
      (EndpointResult.httpError 400 "Prompt field_id must match the created field ID",
       ⟨[⟨uuidA, "wf", "t0"⟩], [⟨uuidB, uuidA, "field1", "text", "t1"⟩], []⟩) :=
  create_field_with_prompt_prompt_id_mismatch
    ⟨[⟨uuidA, "wf", "t0"⟩], [], []⟩ uuidA
    ⟨uuidA, "field1", "text"⟩ ⟨uuidD, "summarize"⟩
    ⟨uuidB, uuidA, "field1", "text", "t1"⟩ uuidA uuidB ⟨uuidA, "wf", "t0"⟩ []
    (InsertOutcome.inserted ⟨uuidC, uuidB, "summarize", "t2"⟩)
    (by decide) (by decide) (by decide) (by decide) (by decide)

/-! ## C6 -/

/-- **C6.** For every field creation request whose `data_type` is not one
of the fixed enumeration, payload validation fails with `InvalidInput`
(status 400) before the handler runs, and the store is unchanged: no field
or prompt record is persisted, whatever the insert outcomes would have
been. -/
theorem create_field_invalid_data_type_rejected
    (store : Store) (workflow_id : String)
    (raw_field : RawFieldCreate) (raw_prompt : RawPromptCreate)
    (fieldInsert : InsertOutcome FieldRow)
    (promptInsert : InsertOutcome PromptRow)
    (h : raw_field.data_type ∉ valid_types) :
    ∃ detail, create_field_endpoint store workflow_id raw_field raw_prompt
        fieldInsert promptInsert = (EndpointResult.httpError 400 detail, store) := by
  unfold create_field_endpoint validateFieldCreate
  cases hu : pyUUIDCanon raw_field.workflow_id with
  | none => exact ⟨_, rfl⟩
  | some wid =>
    by_cases hn : pyStrip raw_field.name == ""
    · simp [hn]
    · have hd : validate_data_type raw_field.data_type =
          Except.error
            "Data type must be one of: text, number, boolean, date, email, url, json" := by
        unfold validate_data_type
        exact if_neg h
      simp [hn, hd]

/-- Witness for C6: `data_type = "integer"` is outside the enumeration; the
request is rejected with a 400 and the store is untouched even though both
inserts would have succeeded. -/
theorem create_field_invalid_data_type_rejected_witness :
    ∃ detail, create_field_endpoint ⟨[⟨uuidA, "wf", "t0"⟩], [], []⟩ uuidA
        ⟨uuidA, "f1", "integer"⟩ ⟨uuidB, "summarize"⟩
        (InsertOutcome.inserted ⟨uuidB, uuidA, "f1", "integer", "t1"⟩)
        (InsertOutcome.inserted ⟨uuidC, uuidB, "summarize", "t2"⟩) =
        (EndpointResult.httpError 400 detail, ⟨[⟨uuidA, "wf", "t0"⟩], [], []⟩) :=
  create_field_invalid_data_type_rejected
    ⟨[⟨uuidA, "wf", "t0"⟩], [], []⟩ uuidA
    ⟨uuidA, "f1", "integer"⟩ ⟨uuidB, "summarize"⟩
    (InsertOutcome.inserted ⟨uuidB, uuidA, "f1", "integer", "t1"⟩)
    (InsertOutcome.inserted ⟨uuidC, uuidB, "summarize", "t2"⟩)
    (by decide)

/-! ## C7 -/

/-- **C7.** For every prompt template and user input (with the API key
set), the Prompt Executor sends exactly one generation request whose user
message is the template, a blank line, then `User Input: ` followed by the
user input, together with the fixed system instruction, using
`max_tokens = 1000`, `temperature = 0.7`, a 30-second timeout and the
`gpt-3.5-turbo` model; on a response with content it returns that content
with leading and trailing whitespace stripped. -/
theorem execute_prompt_single_request_and_trim
    (api : ChatRequest → ApiOutcome) (prompt_template user_input : String) :
    (execute_prompt true api prompt_template user_input).1 =
      [chatRequest prompt_template user_input] ∧
    (chatRequest prompt_template user_input).messages =
      [⟨"system", systemInstruction⟩,
       ⟨"user", prompt_template ++ "\n\nUser Input: " ++ user_input⟩] ∧
    (chatRequest prompt_template user_input).model = "gpt-3.5-turbo" ∧
    (chatRequest prompt_template user_input).max_tokens = 1000 ∧
    (chatRequest prompt_template user_input).temperature = 7 / 10 ∧
    (chatRequest prompt_template user_input).timeout = 30 ∧
    ∀ content, api (chatRequest prompt_template user_input) =
        ApiOutcome.success (some content) →
      (execute_prompt true api prompt_template user_input).2 =
        Except.ok (pyStrip content) := by
  refine ⟨?_, rfl, rfl, rfl, rfl, rfl, ?_⟩
  · unfold execute_prompt
    cases hapi : api (chatRequest prompt_template user_input) with
    | success c => cases c <;> simp [hapi]
    | apiError m => simp [hapi]
    | otherError m => simp [hapi]
  · intro content hc
    simp [execute_prompt, hc]

/-- Witness for C7 at a concrete template, input and API response. -/
theorem execute_prompt_single_request_and_trim_witness :
    (execute_prompt true (fun _ => ApiOutcome.success (some " result "))
        "Summarize the text" "some text").1 =
      [chatRequest "Summarize the text" "some text"] ∧
    (execute_prompt true (fun _ => ApiOutcome.success (some " result "))
        "Summarize the text" "some text").2 =
      Except.ok (pyStrip " result ") := by
  have h := execute_prompt_single_request_and_trim
    (fun _ => ApiOutcome.success (some " result ")) "Summarize the text" "some text"
  exact ⟨h.1, h.2.2.2.2.2.2 " result " rfl⟩

/-! ## C8 -/

/-- **C8.** For every workflow fetch: a syntactically invalid identifier
fails with 400 whatever the store holds (the lookup result is never
consulted), and a valid identifier matching no stored workflow fails with
404. -/
theorem get_workflow_error_paths (store : Store) (workflow_id : String) :
    (pyUUIDCanon workflow_id = none →
      get_workflow store workflow_id =
        EndpointResult.httpError 400 "Invalid workflow ID format") ∧
    (∀ wuuid, pyUUIDCanon workflow_id = some wuuid →
      selectWorkflowsById store wuuid = [] →
      get_workflow store workflow_id =
        EndpointResult.httpError 404 "Workflow not found") := by
  constructor
  · intro h
    simp [get_workflow, h]
  · intro wuuid h hsel
    simp [get_workflow, h, hsel]

/-- Witness for C8: an invalid id on a store that does hold workflows, and
a fresh valid id on the same store. -/
theorem get_workflow_error_paths_witness :
    get_workflow ⟨[⟨uuidA, "wf", "t0"⟩], [], []⟩ "not-a-uuid" =
      EndpointResult.httpError 400 "Invalid workflow ID format" ∧
    get_workflow ⟨[⟨uuidA, "wf", "t0"⟩], [], []⟩ uuidB =
      EndpointResult.httpError 404 "Workflow not found" :=
  ⟨(get_workflow_error_paths ⟨[⟨uuidA, "wf", "t0"⟩], [], []⟩ "not-a-uuid").1
      (by decide),
   (get_workflow_error_paths ⟨[⟨uuidA, "wf", "t0"⟩], [], []⟩ uuidB).2 uuidB
      (by decide) (by decide)⟩

/-! ## C9 -/

/-- **C9.** For every workflow creation whose store insert raises an error
whose lowercased message contains `duplicate key value`, the operation
reports 409 Conflict (not a generic 500), the detection being a substring
match on the store's error message. -/
theorem create_workflow_duplicate_key_conflict
    (workflow_data : WorkflowCreateData) (store : Store) (msg : String)
    (h : strContainsSub (pyLower msg) "duplicate key value" = true) :
    create_workflow workflow_data (InsertOutcome.raised msg) store =
      (EndpointResult.httpError 409 "A workflow with this name already exists",
       store) := by
  simp [create_workflow, h]

/-- Witness for C9 on a Postgres-style duplicate-key message. -/
theorem create_workflow_duplicate_key_conflict_witness :
    create_workflow ⟨"wf"⟩
      (InsertOutcome.raised
        "ERROR: Duplicate key value violates unique constraint workflows_name_key")
      ⟨[⟨uuidA, "wf", "t0"⟩], [], []⟩ =
      (EndpointResult.httpError 409 "A workflow with this name already exists",
       ⟨[⟨uuidA, "wf", "t0"⟩], [], []⟩) :=
  create_workflow_duplicate_key_conflict ⟨"wf"⟩
    ⟨[⟨uuidA, "wf", "t0"⟩], [], []⟩
    "ERROR: Duplicate key value violates unique constraint workflows_name_key"
    (by decide)

/-! ## C10 -/

/-- **C10.** Every `FieldExecutionResult` produced by a workflow execution
satisfies: `execution_success` is true iff `error_message` is `none`;
whenever `execution_success` is false the `ai_response` is empty; and each
result is the independent processing of some field, with an empty
`prompt_template` in the zero-prompt case. -/
theorem execute_workflow_field_result_invariant
    (apiKeySet : Bool) (api : ChatRequest → ApiOutcome) (store : Store)
    (workflow_id user_input now : String) (resp : WorkflowExecutionResponse)
    (h : execute_workflow apiKeySet api store workflow_id user_input now =
      EndpointResult.ok 200 resp) :
    ∀ r ∈ resp.field_results,
      (r.execution_success = true ↔ r.error_message = none) ∧
      (r.execution_success = false → r.ai_response = "") ∧
      ∃ f : FieldRow, r = processField apiKeySet api store user_input f ∧
        (selectPromptsByField store f.id = [] → r.prompt_template = "") := by
  have hinv : ∀ f : FieldRow,
      ((processField apiKeySet api store user_input f).execution_success = true ↔
        (processField apiKeySet api store user_input f).error_message = none) ∧
      ((processField apiKeySet api store user_input f).execution_success = false →
        (processField apiKeySet api store user_input f).ai_response = "") ∧
      (selectPromptsByField store f.id = [] →
        (processField apiKeySet api store user_input f).prompt_template = "") := by
    intro f
    unfold processField
    cases hp : selectPromptsByField store f.id with
    | nil => simp
    | cons p ps =>
        cases hr : (execute_prompt apiKeySet api p.prompt_template user_input).2 with
        | ok s => simp [hr]
        | error e => simp [hr]
  unfold execute_workflow at h
  cases hparse : pyUUIDCanon workflow_id with
  | none =>
      simp only [hparse] at h
      exact absurd h (by simp)
  | some wuuid =>
    simp only [hparse] at h
    cases hw : selectWorkflowsById store wuuid with
    | nil =>
        simp only [hw] at h
        exact absurd h (by simp)
    | cons w ws =>
      simp only [hw] at h
      cases hfs : selectFieldsByWorkflow store wuuid with
      | nil =>
          simp only [hfs] at h
          exact absurd h (by simp)
      | cons f0 rest =>
        simp only [hfs, EndpointResult.ok.injEq] at h
        obtain ⟨-, h2⟩ := h
        intro r hr
        rw [← h2] at hr
        simp only [executeLoop_results] at hr
        obtain ⟨f, hf, rfl⟩ := List.mem_map.mp hr
        exact ⟨(hinv f).1, (hinv f).2.1, f, rfl, (hinv f).2.2⟩

/-- Witness for C10 on a concrete execution whose single field has no
prompts, instantiated at that field's result entry. -/
theorem execute_workflow_field_result_invariant_witness :
    ((FieldExecutionResult.mk uuidB "f1" "text" "" "" false
        (some "No prompts found for this field")).execution_success = true ↔
      (FieldExecutionResult.mk uuidB "f1" "text" "" "" false
        (some "No prompts found for this field")).error_message = none) ∧
    ((FieldExecutionResult.mk uuidB "f1" "text" "" "" false
        (some "No prompts found for this field")).execution_success = false →
      (FieldExecutionResult.mk uuidB "f1" "text" "" "" false
        (some "No prompts found for this field")).ai_response = "") ∧
    ∃ f : FieldRow,
      FieldExecutionResult.mk uuidB "f1" "text" "" "" false
          (some "No prompts found for this field") =
        processField true (fun _ => ApiOutcome.apiError "boom")
          ⟨[⟨uuidA, "wf", "t0"⟩], [⟨uuidB, uuidA, "f1", "text", "t1"⟩], []⟩ "hi" f ∧
      (selectPromptsByField
          ⟨[⟨uuidA, "wf", "t0"⟩], [⟨uuidB, uuidA, "f1", "text", "t1"⟩], []⟩ f.id = [] →
        (FieldExecutionResult.mk uuidB "f1" "text" "" "" false
          (some "No prompts found for this field")).prompt_template = "") :=
  execute_workflow_field_result_invariant true (fun _ => ApiOutcome.apiError "boom")
    ⟨[⟨uuidA, "wf", "t0"⟩], [⟨uuidB, uuidA, "f1", "text", "t1"⟩], []⟩
    uuidA "hi" "t9"
    (WorkflowExecutionResponse.mk uuidA "wf" "hi" 1 0 1
      [⟨uuidB, "f1", "text", "", "", false,
        some "No prompts found for this field"⟩] "t9")
    (by decide)
    (FieldExecutionResult.mk uuidB "f1" "text" "" "" false
      (some "No prompts found for this field"))
    (by decide)

end AiMvp
